import Mathlib

/-!
Verification of the Momentum-Breakout decision engine
(`backend/app/auto/decision_engine.py`).

The engine's numeric values are IEEE doubles in the source; they are modelled
here as rationals (`ℚ`), with pandas' NaN sentinel for not-yet-defined
indicator values modelled as `Option ℚ` (`none` = NaN).  Comparisons against
NaN are false in Python; the `oLt`/`oGt`/`oLe`/`oGe` helpers reproduce that.
-/

namespace DecisionEngine

/-- Strategy parameter `RISK_PER_TRADE = 0.01` (decision_engine.py line 34). -/
def RISK_PER_TRADE : ℚ := 1/100

/-- Strategy parameter `MAX_DAILY_LOSS = 0.10` (line 35). -/
def MAX_DAILY_LOSS : ℚ := 1/10

/-- Strategy parameter `MAX_LEVERAGE = 20` (line 37). -/
def MAX_LEVERAGE : ℚ := 20

/-- Strategy parameter `MIN_CANDLES_REQUIRED = 60` (line 39). -/
def MIN_CANDLES_REQUIRED : ℕ := 60

/-- One row of the indicator DataFrame produced by `compute_indicators`,
restricted to the columns the strategy logic reads.  Derived columns that can
be NaN in pandas (rolling windows not yet filled, EMA of NaN input, …) are
`Option ℚ`; the raw candle columns are plain `ℚ` (the candle schema supplies
numeric values). -/
structure Row where
  timestamp : ℚ := 0
  high : ℚ := 0
  low : ℚ := 0
  close : ℚ := 0
  volume : ℚ := 0
  ema20 : Option ℚ := none
  ema50 : Option ℚ := none
  atr14 : Option ℚ := none
  rsi14 : Option ℚ := none
  macd_hist : Option ℚ := none
  bb_upper : Option ℚ := none
  bb_lower : Option ℚ := none
  hh_20 : Option ℚ := none
  ll_20 : Option ℚ := none
  vol_ma20 : Option ℚ := none
deriving Repr, DecidableEq

/-- Placeholder row used for the (unreachable) empty-list cases of
`List.getLastD`; `generate_signal` only reads rows of a list whose length is
at least `MIN_CANDLES_REQUIRED`. -/
def defaultRow : Row := {}

/-- Python's builtin `abs` on a float, translated so that it evaluates by
kernel reduction (Mathlib's lattice `|·|` on `ℚ` does not). -/
def ratAbs (q : ℚ) : ℚ := if q < 0 then -q else q

/-- Python's builtin `max` on two floats. -/
def pymax (a b : ℚ) : ℚ := if a < b then b else a

/-- Python float `a < b` where either side may be NaN: false when one side is
NaN, the rational comparison otherwise. -/
def oLt : Option ℚ → Option ℚ → Bool
  | some a, some b => a < b
  | _, _ => false

/-- Python float `a > b` with NaN semantics. -/
def oGt : Option ℚ → Option ℚ → Bool
  | some a, some b => b < a
  | _, _ => false

/-- Python float `a ≥ b` with NaN semantics. -/
def oGe : Option ℚ → Option ℚ → Bool
  | some a, some b => b ≤ a
  | _, _ => false

/-- Python float `a ≤ b` with NaN semantics. -/
def oLe : Option ℚ → Option ℚ → Bool
  | some a, some b => a ≤ b
  | _, _ => false

/-- The `Signal` dataclass (lines 54-66). -/
structure Signal where
  symbol : String
  timeframe : String
  action : String
  reason : String
  mode : String
  confidence : ℚ
  entry : Option ℚ := none
  sl : Option ℚ := none
  tp1 : Option ℚ := none
  tp2 : Option ℚ := none
  tp3 : Option ℚ := none
deriving Repr, DecidableEq

/-- A `NONE` signal, as every rejection branch of the engine builds it. -/
def mkNone (symbol timeframe reason : String) : Signal :=
  { symbol := symbol, timeframe := timeframe, action := "NONE", reason := reason,
    mode := "MOMENTUM_BREAKOUT", confidence := 0 }

/-- `_passes_filters(row, prev_row)` (lines 195-233): the market-quality
filter gate.  Returns `(ok, reason_if_not_ok)`, first failing check wins. -/
def passes_filters (row prev_row : Row) : Bool × String :=
  match row.atr14 with
  | none => (false, "Indicateurs insuffisants (ATR NaN ou close <= 0).")
  | some atr =>
    if row.close ≤ 0 then
      (false, "Indicateurs insuffisants (ATR NaN ou close <= 0).")
    else if atr / row.close < 3/1000 then
      (false, "Volatilité trop faible (ATR/close < 0.3%).")
    else
      match row.ema20, row.ema50 with
      | some ema20, some ema50 =>
        if ratAbs (ema20 - ema50) / row.close < 1/1000 then
          (false, "Pas de direction claire (EMA20 ~ EMA50).")
        else
          match row.vol_ma20 with
          | none => (false, "Volume moyen insuffisant.")
          | some vol_ma =>
            if vol_ma = 0 then
              (false, "Volume moyen insuffisant.")
            else if row.volume < (1/2) * vol_ma then
              (false, "Volume trop faible (< 50% de la moyenne).")
            else
              match prev_row.atr14 with
              | some prev_atr =>
                if atr ≤ prev_atr then
                  (false, "Volatilité non croissante (ATR pas en expansion).")
                else (true, "")
              | none => (true, "")
      | _, _ => (false, "Indicateurs de tendance insuffisants (EMA NaN).")

/-- Check 1 of the documented filter-gate order: ATR undefined or close ≤ 0. -/
def specCheck1 (r : Row) : Bool := r.atr14.isNone || decide (r.close ≤ 0)

/-- Check 2: `ATR/close < 0.003` (volatility floor). -/
def specCheck2 (r : Row) : Bool := decide (r.atr14.getD 0 / r.close < 3/1000)

/-- Check 3: EMA20 or EMA50 undefined. -/
def specCheck3 (r : Row) : Bool := r.ema20.isNone || r.ema50.isNone

/-- Check 4: `|EMA20 − EMA50| / close < 0.001` (no clear trend). -/
def specCheck4 (r : Row) : Bool :=
  decide (ratAbs (r.ema20.getD 0 - r.ema50.getD 0) / r.close < 1/1000)

/-- Check 5: volume moving average undefined or zero. -/
def specCheck5 (r : Row) : Bool := r.vol_ma20.isNone || decide (r.vol_ma20.getD 0 = 0)

/-- Check 6: `volume < 0.5 × volume_ma` (thin volume). -/
def specCheck6 (r : Row) : Bool := decide (r.volume < (1/2) * r.vol_ma20.getD 0)

/-- Check 7: ATR not strictly greater than the previous row's ATR; skipped
(never fails) when the previous ATR is undefined. -/
def specCheck7 (r p : Row) : Bool :=
  match p.atr14 with
  | none => false
  | some prev_atr => decide (r.atr14.getD 0 ≤ prev_atr)

/-- The filter gate exactly as the specification describes it: the seven
documented checks tried in order, first failure returning that check's
rejection reason, passing only when all checks clear. -/
def filter_gate_spec (r p : Row) : Bool × String :=
  if specCheck1 r then (false, "Indicateurs insuffisants (ATR NaN ou close <= 0).")
  else if specCheck2 r then (false, "Volatilité trop faible (ATR/close < 0.3%).")
  else if specCheck3 r then (false, "Indicateurs de tendance insuffisants (EMA NaN).")
  else if specCheck4 r then (false, "Pas de direction claire (EMA20 ~ EMA50).")
  else if specCheck5 r then (false, "Volume moyen insuffisant.")
  else if specCheck6 r then (false, "Volume trop faible (< 50% de la moyenne).")
  else if specCheck7 r p then (false, "Volatilité non croissante (ATR pas en expansion).")
  else (true, "")

/-- "All checks clear" for the filter gate, as one Boolean. -/
def filter_all_clear (r p : Row) : Bool :=
  !specCheck1 r && !specCheck2 r && !specCheck3 r && !specCheck4 r &&
    !specCheck5 r && !specCheck6 r && !specCheck7 r p

/-- `_build_long_signal` (lines 236-297), with the last and second-to-last
DataFrame rows passed explicitly (the source reads `df.iloc[-1]`,
`df.iloc[-2]` and `df["macd_hist"].iloc[-2]`, i.e. exactly these two rows).
In the level computations, `atr14` and `hh_20` are provably defined
(the filter gate forces `atr14 ≠ NaN`, the breakout forces `hh_20 ≠ NaN`),
so `Option.getD`'s default is never used. -/
def build_long_signal (symbol timeframe : String) (row prev_row : Row) : Signal :=
  let pf := passes_filters row prev_row
  if !pf.1 then mkNone symbol timeframe pf.2
  else
    let trend_up := oGt row.ema20 row.ema50
    let breakout := oGt (some row.close) row.hh_20 &&
      oGt (some row.volume) (row.vol_ma20.map (fun v => (6/5) * v)) &&
      oGt (some row.close) row.bb_upper
    let rsi_cond := oGt row.rsi14 (some 55)
    let macd_cond := oGt row.macd_hist (some 0) && oGe row.macd_hist prev_row.macd_hist
    if !trend_up then
      mkNone symbol timeframe "Pas de tendance haussière claire."
    else if !breakout then
      mkNone symbol timeframe "Pas de breakout haussier valide."
    else if !rsi_cond then
      mkNone symbol timeframe "RSI pas assez fort pour un long (>55)."
    else if !macd_cond then
      mkNone symbol timeframe "MACD histogram non haussier / non croissant."
    else
      let atr := row.atr14.getD 0
      let entry := row.close
      let sl := row.hh_20.getD 0 - (1/2) * atr
      let tp1 := entry + 1 * atr
      let tp2 := entry + 2 * atr
      let tp3 := entry + 3 * atr
      if entry ≤ sl then
        mkNone symbol timeframe "SL calculé invalide (>= entry)."
      else
        { symbol := symbol, timeframe := timeframe, action := "LONG",
          reason := "Long breakout haussier validé (trend, volume, RSI, MACD, ATR).",
          mode := "MOMENTUM_BREAKOUT", confidence := 4/5,
          entry := some entry, sl := some sl,
          tp1 := some tp1, tp2 := some tp2, tp3 := some tp3 }

/-- `_build_short_signal` (lines 300-360), mirrored from the long side. -/
def build_short_signal (symbol timeframe : String) (row prev_row : Row) : Signal :=
  let pf := passes_filters row prev_row
  if !pf.1 then mkNone symbol timeframe pf.2
  else
    let trend_down := oLt row.ema20 row.ema50
    let breakout := oLt (some row.close) row.ll_20 &&
      oGt (some row.volume) (row.vol_ma20.map (fun v => (6/5) * v)) &&
      oLt (some row.close) row.bb_lower
    let rsi_cond := oLt row.rsi14 (some 45)
    let macd_cond := oLt row.macd_hist (some 0) && oLe row.macd_hist prev_row.macd_hist
    if !trend_down then
      mkNone symbol timeframe "Pas de tendance baissière claire."
    else if !breakout then
      mkNone symbol timeframe "Pas de breakout baissier valide."
    else if !rsi_cond then
      mkNone symbol timeframe "RSI pas assez faible pour un short (<45)."
    else if !macd_cond then
      mkNone symbol timeframe "MACD histogram non baissier / non décroissant."
    else
      let atr := row.atr14.getD 0
      let entry := row.close
      let sl := row.ll_20.getD 0 + (1/2) * atr
      let tp1 := entry - 1 * atr
      let tp2 := entry - 2 * atr
      let tp3 := entry - 3 * atr
      if sl ≤ entry then
        mkNone symbol timeframe "SL calculé invalide (<= entry)."
      else
        { symbol := symbol, timeframe := timeframe, action := "SHORT",
          reason := "Short breakout baissier validé (trend, volume, RSI, MACD, ATR).",
          mode := "MOMENTUM_BREAKOUT", confidence := 4/5,
          entry := some entry, sl := some sl,
          tp1 := some tp1, tp2 := some tp2, tp3 := some tp3 }

/-- `generate_signal(symbol, timeframe, df)` (lines 363-393): insufficient
history guard, then dominant-trend dispatch between the long and the short
builder on the last two rows of the indicator table. -/
def generate_signal (symbol timeframe : String) (df : List Row) : Signal :=
  if df.length < MIN_CANDLES_REQUIRED then
    { symbol := symbol, timeframe := timeframe, action := "NONE",
      reason := "Pas assez d\x27historique (" ++ toString df.length ++ " < " ++
        toString MIN_CANDLES_REQUIRED ++ ").",
      mode := "MOMENTUM_BREAKOUT", confidence := 0 }
  else
    let row := df.getLastD defaultRow
    let prev := df.dropLast.getLastD defaultRow
    if oLt row.ema20 row.ema50 then
      let short_sig := build_short_signal symbol timeframe row prev
      if short_sig.action = "SHORT" then short_sig
      else build_long_signal symbol timeframe row prev
    else
      let long_sig := build_long_signal symbol timeframe row prev
      if long_sig.action = "LONG" then long_sig
      else build_short_signal symbol timeframe row prev

/-- `_compute_position_size(equity, entry, sl)` (lines 400-410). -/
def compute_position_size (equity entry sl : ℚ) : ℚ :=
  let risk_usd := equity * RISK_PER_TRADE
  let distance := ratAbs (entry - sl)
  if distance ≤ 0 then 0
  else pymax (risk_usd / distance) 0

/-- `_respect_leverage_constraints(equity, entry, qty)` (lines 413-423). -/
def respect_leverage_constraints (equity entry qty : ℚ) : ℚ :=
  let notional := qty * entry
  let max_notional := equity * MAX_LEVERAGE
  if notional ≤ max_notional then qty
  else if entry ≤ 0 then 0
  else max_notional / entry

/-- One raw candle dict as handed to `compute_indicators` (lines 141-169).
A Python dict may lack any of the keys; a missing key is `none`.
pandas builds one column per key appearing in at least one dict, so the
source's column checks are checks that at least one candle carries the key. -/
structure RawCandle where
  open_ : Option ℚ := none
  high : Option ℚ := none
  low : Option ℚ := none
  close : Option ℚ := none
  volume : Option ℚ := none
  timestamp : Option ℚ := none
  ts : Option ℚ := none
deriving Repr, DecidableEq

/-- `"k" in df.columns` for the DataFrame built from the candle dicts: the
column exists when at least one candle carries the key. -/
def hasCol (candles : List RawCandle) (f : RawCandle → Option ℚ) : Bool :=
  candles.any (fun c => (f c).isSome)

/-- The `ValueError` raised by `compute_indicators` for a given candle list,
`none` when validation passes: empty list (line 149), missing
timestamp-like column after the `ts → timestamp` normalisation (line 157),
then each of the required price/volume columns in order (lines 167-169).
The unit disambiguation, datetime conversion and timestamp sort between these
checks cannot raise on numeric input. -/
def compute_indicators_validate (candles : List RawCandle) : Option String :=
  if candles = [] then some "Liste de candles vide"
  else if !(hasCol candles RawCandle.ts || hasCol candles RawCandle.timestamp) then
    some ("Il manque une colonne \x27timestamp\x27 ou \x27ts\x27 dans les candles")
  else if !hasCol candles RawCandle.open_ then
    some ("Colonne \x27open\x27 manquante dans les candles")
  else if !hasCol candles RawCandle.high then
    some ("Colonne \x27high\x27 manquante dans les candles")
  else if !hasCol candles RawCandle.low then
    some ("Colonne \x27low\x27 manquante dans les candles")
  else if !hasCol candles RawCandle.close then
    some ("Colonne \x27close\x27 manquante dans les candles")
  else if !hasCol candles RawCandle.volume then
    some ("Colonne \x27volume\x27 manquante dans les candles")
  else none

/-- `compute_indicators` (lines 141-188): the validation above, then the
numeric indicator table.  The numeric body (EMA/RSI/ATR/MACD/Bollinger and
the rolling extrema) is passed in as `f`: no claim below depends on its
values except through explicitly stated hypotheses (e.g. that the last row's
`hh_20`/`ll_20` are the rolling extrema of the candles' highs/lows, the
definitions `rolling_last_max`/`rolling_last_min` of lines 183-184). -/
def compute_indicators (f : List RawCandle → List Row) (candles : List RawCandle) :
    Except String (List Row) :=
  match compute_indicators_validate candles with
  | some msg => .error msg
  | none => .ok (f candles)

/-- The last entry of `xs.rolling(w).max()` (line 183, `hh_20` with `w = 20`):
NaN while fewer than `w` values exist, otherwise the maximum of the last `w`
values. -/
def rolling_last_max (xs : List ℚ) (w : ℕ) : Option ℚ :=
  if xs.length < w then none else (xs.drop (xs.length - w)).max?

/-- The last entry of `xs.rolling(w).min()` (line 184, `ll_20` with `w = 20`). -/
def rolling_last_min (xs : List ℚ) (w : ℕ) : Option ℚ :=
  if xs.length < w then none else (xs.drop (xs.length - w)).min?

/-- One recorded decision dict.  The risk-stop and error decisions carry no
level fields (their dicts lack the keys); that absence is modelled as `none`. -/
structure Decision where
  symbol : String
  timeframe : String
  action : String
  reason : String
  mode : String
  confidence : ℚ
  entry : Option ℚ := none
  sl : Option ℚ := none
  tp1 : Option ℚ := none
  tp2 : Option ℚ := none
  tp3 : Option ℚ := none
  timestamp : ℚ
deriving Repr, DecidableEq

/-- The `Order` dataclass (lines 69-82), its `meta` dict flattened into the
three fields the engine stores in it. -/
structure OrderRec where
  symbol : String
  side : String
  qty : ℚ
  entry : ℚ
  sl : ℚ
  tp1 : ℚ
  tp2 : ℚ
  tp3 : ℚ
  risk_perc : ℚ
  leverage : ℚ
  created_at : ℚ
  meta_mode : String
  meta_confidence : ℚ
  meta_reason : String
deriving Repr, DecidableEq

/-- The module-level engine state: `DAILY_PNL`, `DAILY_DATE` (lines 46-47,
the date as an abstract day number) and the `DECISIONS` / `ORDERS` deques
(lines 42-43). -/
structure EngineState where
  dailyPnl : ℚ := 0
  dailyDate : Option ℕ := none
  decisions : List Decision := []
  orders : List OrderRec := []
deriving Repr, DecidableEq

/-- `deque(maxlen=cap).append`: append, evicting the oldest entries beyond
the capacity. -/
def pushBounded {α : Type} (cap : ℕ) (xs : List α) (x : α) : List α :=
  let ys := xs ++ [x]
  if cap < ys.length then ys.drop (ys.length - cap) else ys

/-- The date-rollover step of `evaluate_and_maybe_trade` (lines 444-447):
`if DAILY_DATE is None or DAILY_DATE != now_date: DAILY_DATE = now_date;
DAILY_PNL = 0.0`. -/
def rolloverStep (nowDate : ℕ) (st : EngineState) : EngineState :=
  if st.dailyDate = some nowDate then st
  else { st with dailyDate := some nowDate, dailyPnl := 0 }

/-- The external-PnL override step (lines 450-451): `if daily_pnl is not
None: DAILY_PNL = daily_pnl`. -/
def overrideStep (daily_pnl : Option ℚ) (st : EngineState) : EngineState :=
  match daily_pnl with
  | some x => { st with dailyPnl := x }
  | none => st

/-- The Python default of the `daily_pnl` parameter (line 431,
`daily_pnl: float = 0.0`): a call omitting the argument passes `0.0`,
which is not `None`. -/
def DAILY_PNL_DEFAULT : Option ℚ := some 0

/-- Floor of a rational, computably (`Int.fdiv` floors since `den > 0`). -/
def ratFloor (q : ℚ) : ℤ := q.num.fdiv (q.den : ℤ)

/-- Round-half-even to the nearest integer, as Python's decimal formatting
rounds. -/
def roundHalfEven (q : ℚ) : ℤ :=
  let f := ratFloor q
  let frac := q - f
  if frac < 1/2 then f
  else if 1/2 < frac then f + 1
  else if f % 2 = 0 then f else f + 1

/-- Python's `f"{x:.2%}"`: the value times 100, two decimals, a percent
sign. -/
def formatPct (q : ℚ) : String :=
  let n := roundHalfEven (q * 10000)
  let sign := if n < 0 then "-" else ""
  let m := n.natAbs
  let frac := m % 100
  let fracStr := if frac < 10 then "0" ++ toString frac else toString frac
  sign ++ toString (m / 100) ++ "." ++ fracStr ++ "%"

/-- The `RISK_STOP` decision dict (lines 455-463). -/
def riskStopDecision (symbol timeframe : String) (nowTs pnl : ℚ) : Decision :=
  { symbol := symbol, timeframe := timeframe, action := "NONE",
    reason := "Daily loss limit atteint (" ++ formatPct pnl ++ ").",
    mode := "RISK_STOP", confidence := 0, timestamp := nowTs }

/-- The `ERROR` decision dict built when `compute_indicators` raises
(lines 471-479). -/
def errorDecision (symbol timeframe : String) (nowTs : ℚ) (msg : String) : Decision :=
  { symbol := symbol, timeframe := timeframe, action := "NONE",
    reason := "Erreur compute_indicators: " ++ msg,
    mode := "ERROR", confidence := 0, timestamp := nowTs }

/-- `asdict(sig)` plus the last candle timestamp (lines 485-486). -/
def decisionOfSignal (sig : Signal) (ts : ℚ) : Decision :=
  { symbol := sig.symbol, timeframe := sig.timeframe, action := sig.action,
    reason := sig.reason, mode := sig.mode, confidence := sig.confidence,
    entry := sig.entry, sl := sig.sl, tp1 := sig.tp1, tp2 := sig.tp2,
    tp3 := sig.tp3, timestamp := ts }

/-- The result dict of `evaluate_and_maybe_trade`. -/
structure EvalResult where
  decision : Decision
  order : Option OrderRec
deriving Repr, DecidableEq

/-- The body of `evaluate_and_maybe_trade` after the PnL bookkeeping
(lines 453-530): daily-loss breaker, indicator computation with its
try/except, signal generation, sizing, leverage clamp and order emission.
`nowDate`/`nowTs` stand for the wall clock (`datetime.utcnow()`). -/
def evaluateFromState (f : List RawCandle → List Row) (nowTs : ℚ)
    (symbol timeframe : String) (candles : List RawCandle) (equity : ℚ)
    (st : EngineState) : EvalResult × EngineState :=
  if st.dailyPnl ≤ -MAX_DAILY_LOSS * equity then
    let decision := riskStopDecision symbol timeframe nowTs st.dailyPnl
    (⟨decision, none⟩, { st with decisions := pushBounded 500 st.decisions decision })
  else
    match compute_indicators f candles with
    | .error msg =>
      let decision := errorDecision symbol timeframe nowTs msg
      (⟨decision, none⟩, { st with decisions := pushBounded 500 st.decisions decision })
    | .ok df =>
      let sig := generate_signal symbol timeframe df
      let lastTs := (df.getLastD defaultRow).timestamp
      let decision := decisionOfSignal sig lastTs
      if sig.action = "NONE" ∨ sig.entry = none ∨ sig.sl = none then
        (⟨decision, none⟩, { st with decisions := pushBounded 500 st.decisions decision })
      else
        let entry := sig.entry.getD 0
        let sl := sig.sl.getD 0
        let qty := respect_leverage_constraints equity entry
          (compute_position_size equity entry sl)
        if qty ≤ 0 then
          let decision := { decision with
            reason := decision.reason ++ " | Taille calculée nulle (qty <= 0).",
            action := "NONE" }
          (⟨decision, none⟩, { st with decisions := pushBounded 500 st.decisions decision })
        else
          let side := if sig.action = "LONG" then "BUY" else "SELL"
          let order : OrderRec :=
            { symbol := symbol, side := side, qty := qty, entry := entry, sl := sl,
              tp1 := sig.tp1.getD entry, tp2 := sig.tp2.getD entry,
              tp3 := sig.tp3.getD entry, risk_perc := RISK_PER_TRADE,
              leverage := MAX_LEVERAGE, created_at := lastTs,
              meta_mode := sig.mode, meta_confidence := sig.confidence,
              meta_reason := sig.reason }
          (⟨decision, some order⟩,
            { st with decisions := pushBounded 500 st.decisions decision,
                      orders := pushBounded 1000 st.orders order })

/-- `evaluate_and_maybe_trade` (lines 426-530): date rollover, then the
external-PnL override, then the evaluation body. -/
def evaluate_and_maybe_trade (f : List RawCandle → List Row) (nowDate : ℕ)
    (nowTs : ℚ) (symbol timeframe : String) (candles : List RawCandle)
    (equity : ℚ) (daily_pnl : Option ℚ) (st : EngineState) :
    EvalResult × EngineState :=
  evaluateFromState f nowTs symbol timeframe candles equity
    (overrideStep daily_pnl (rolloverStep nowDate st))

/-- `get_pnl_stats` (lines 559-568), the date kept in the model's day-number
form. -/
def get_pnl_stats (st : EngineState) : ℚ × Option ℕ :=
  (st.dailyPnl, st.dailyDate)

/-- A last indicator row on which the long builder fires: uptrend, breakout
above the (already exceeded) 20-bar high, strong RSI, rising MACD histogram,
expanding ATR, ample volume.  Note `close > high`: on an OHLC-valid candle
the breakout is impossible (see `long_breakout_unreachable_on_valid_candles`). -/
def wRow : Row :=
  { timestamp := 1000, high := 100, low := 90, close := 110,
    volume := 100, ema20 := some 110, ema50 := some 100, atr14 := some 5,
    rsi14 := some 60, macd_hist := some 1, bb_upper := some 105, bb_lower := some 80,
    hh_20 := some 100, ll_20 := some 90, vol_ma20 := some 50 }

/-- The second-to-last row paired with `wRow`: smaller ATR (so volatility is
expanding) and smaller MACD histogram (so the histogram is rising). -/
def wPrev : Row := { atr14 := some 4, macd_hist := some (1/2) }

/-- A 60-row indicator table ending in `wPrev, wRow`. -/
def wdf : List Row := List.replicate 58 wPrev ++ [wPrev, wRow]

/-- An OHLC-valid candle row: `low ≤ close ≤ high`. -/
def vBase : Row :=
  { timestamp := 1000, high := 10, low := 1, close := 5, volume := 2 }

/-- The last row of `vdf`, with `hh_20`/`ll_20` the rolling extrema the
pipeline computes for it. -/
def vLast : Row :=
  { vBase with hh_20 := rolling_last_max (List.replicate 59 (10:ℚ) ++ [10]) 20,
               ll_20 := rolling_last_min (List.replicate 59 (1:ℚ) ++ [1]) 20 }

/-- A 60-row indicator table of OHLC-valid rows. -/
def vdf : List Row := List.replicate 59 vBase ++ [vLast]

/-- A pipeline body producing `vdf`. -/
def vPipeline : List RawCandle → List Row := fun _ => vdf

/-- A fully populated raw candle. -/
def vCandle : RawCandle :=
  { open_ := some 5, high := some 10, low := some 1, close := some 5,
    volume := some 2, timestamp := some 1000 }

/-- A raw candle missing its `close` field. -/
def noCloseCandle : RawCandle :=
  { open_ := some 1, high := some 2, low := some 0, volume := some 3,
    timestamp := some 1000 }

/-- A raw candle with neither `timestamp` nor `ts`. -/
def noTsCandle : RawCandle :=
  { open_ := some 1, high := some 2, low := some 0, close := some 1,
    volume := some 3 }

/-! ### List helpers -/

theorem getLastD_append_single {α : Type} (l : List α) (a d : α) :
    (l ++ [a]).getLastD d = a := by
  simp

theorem dropLast_append_pair {α : Type} (l : List α) (a b : α) :
    (l ++ [a, b]).dropLast = l ++ [a] := by
  rw [show l ++ [a, b] = (l ++ [a]) ++ [b] by simp]
  simp

theorem getLastD_append_pair {α : Type} (l : List α) (a b d : α) :
    (l ++ [a, b]).getLastD d = b := by
  rw [show l ++ [a, b] = (l ++ [a]) ++ [b] by simp]
  simp

theorem init_le_foldl_max : ∀ (l : List ℚ) (init : ℚ), init ≤ l.foldl max init := by
  intro l
  induction l with
  | nil => intro init; simp
  | cons x xs ih =>
    intro init
    simpa using le_trans (le_max_left init x) (ih (max init x))

theorem le_foldl_max_of_mem : ∀ (l : List ℚ) (init a : ℚ), a ∈ l → a ≤ l.foldl max init := by
  intro l
  induction l with
  | nil => intro init a ha; cases ha
  | cons x xs ih =>
    intro init a ha
    rcases List.mem_cons.mp ha with rfl | ha
    · simpa using le_trans (le_max_right init a) (init_le_foldl_max xs (max init a))
    · simpa using ih (max init x) a ha

theorem le_max?_of_mem {l : List ℚ} {a m : ℚ} (ha : a ∈ l) (hm : l.max? = some m) :
    a ≤ m := by
  cases l with
  | nil => cases ha
  | cons x xs =>
    have hx : (x :: xs).max? = some (xs.foldl max x) := rfl
    rw [hx] at hm
    obtain rfl : xs.foldl max x = m := Option.some.inj hm
    rcases List.mem_cons.mp ha with rfl | ha
    · exact init_le_foldl_max xs a
    · exact le_foldl_max_of_mem xs x a ha

theorem foldl_min_le_init : ∀ (l : List ℚ) (init : ℚ), l.foldl min init ≤ init := by
  intro l
  induction l with
  | nil => intro init; simp
  | cons x xs ih =>
    intro init
    simpa using le_trans (ih (min init x)) (min_le_left init x)

theorem foldl_min_le_of_mem : ∀ (l : List ℚ) (init a : ℚ), a ∈ l → l.foldl min init ≤ a := by
  intro l
  induction l with
  | nil => intro init a ha; cases ha
  | cons x xs ih =>
    intro init a ha
    rcases List.mem_cons.mp ha with rfl | ha
    · simpa using le_trans (foldl_min_le_init xs (min init a)) (min_le_right init a)
    · simpa using ih (min init x) a ha

theorem min?_le_of_mem {l : List ℚ} {a m : ℚ} (ha : a ∈ l) (hm : l.min? = some m) :
    m ≤ a := by
  cases l with
  | nil => cases ha
  | cons x xs =>
    have hx : (x :: xs).min? = some (xs.foldl min x) := rfl
    rw [hx] at hm
    obtain rfl : xs.foldl min x = m := Option.some.inj hm
    rcases List.mem_cons.mp ha with rfl | ha
    · exact foldl_min_le_init xs a
    · exact foldl_min_le_of_mem xs x a ha

/-- When the window is filled, the last rolling maximum is defined and is at
least the last value of the series. -/
theorem rolling_last_max_ge_last (xs : List ℚ) (x : ℚ) (w : ℕ) (hw : 0 < w)
    (hlen : w ≤ xs.length) (hx : xs.getLast? = some x) :
    ∃ m, rolling_last_max xs w = some m ∧ x ≤ m := by
  unfold rolling_last_max
  rw [if_neg (by omega)]
  have hl : (xs.drop (xs.length - w)).getLast? = some x := by
    rw [List.getLast?_drop, if_neg (by omega)]
    exact hx
  have hmem : x ∈ xs.drop (xs.length - w) := by
    obtain ⟨h, hx'⟩ := List.mem_getLast?_eq_getLast (by rw [hl]; rfl)
    rw [hx']
    exact List.getLast_mem h
  cases hm : (xs.drop (xs.length - w)).max? with
  | none =>
    rw [List.max?_eq_none_iff] at hm
    rw [hm] at hl
    cases hl
  | some m => exact ⟨m, rfl, le_max?_of_mem hmem hm⟩

/-- When the window is filled, the last rolling minimum is defined and is at
most the last value of the series. -/
theorem rolling_last_min_le_last (xs : List ℚ) (x : ℚ) (w : ℕ) (hw : 0 < w)
    (hlen : w ≤ xs.length) (hx : xs.getLast? = some x) :
    ∃ m, rolling_last_min xs w = some m ∧ m ≤ x := by
  unfold rolling_last_min
  rw [if_neg (by omega)]
  have hl : (xs.drop (xs.length - w)).getLast? = some x := by
    rw [List.getLast?_drop, if_neg (by omega)]
    exact hx
  have hmem : x ∈ xs.drop (xs.length - w) := by
    obtain ⟨h, hx'⟩ := List.mem_getLast?_eq_getLast (by rw [hl]; rfl)
    rw [hx']
    exact List.getLast_mem h
  cases hm : (xs.drop (xs.length - w)).min? with
  | none =>
    rw [List.min?_eq_none_iff] at hm
    rw [hm] at hl
    cases hl
  | some m => exact ⟨m, rfl, min?_le_of_mem hmem hm⟩

/-! ### NaN-comparison helpers -/

theorem oGt_some_iff {x : ℚ} {o : Option ℚ} :
    oGt (some x) o = true ↔ ∃ y, o = some y ∧ y < x := by
  cases o <;> simp [oGt]

theorem oLt_some_iff {x : ℚ} {o : Option ℚ} :
    oLt (some x) o = true ↔ ∃ y, o = some y ∧ x < y := by
  cases o <;> simp [oLt]

/-! ### Filter-gate facts -/

/-- A passing filter gate forces a defined ATR, a positive close and an ATR
of at least 0.3% of the close (hence positive). -/
theorem passes_filters_facts {r p : Row} (h : (passes_filters r p).1 = true) :
    ∃ a, r.atr14 = some a ∧ 0 < r.close ∧ (3/1000) * r.close ≤ a ∧ 0 < a := by
  unfold passes_filters at h
  cases hA : r.atr14 with
  | none => rw [hA] at h; simp at h
  | some a =>
    rw [hA] at h
    by_cases hc : r.close ≤ 0
    · simp [hc] at h
    · by_cases hv : a / r.close < 3/1000
      · simp [hc, hv] at h
      · have hc' : 0 < r.close := lt_of_not_le hc
        have hv' : (3/1000 : ℚ) ≤ a / r.close := le_of_not_lt hv
        have ha : (3/1000) * r.close ≤ a := by
          rw [le_div_iff₀ hc'] at hv'
          linarith
        exact ⟨a, rfl, hc', ha, by nlinarith⟩

/-! ### Filter gate: refinement against the documented check order -/

theorem passes_filters_eq_spec (r p : Row) : passes_filters r p = filter_gate_spec r p := by
  unfold passes_filters filter_gate_spec specCheck1 specCheck2 specCheck3 specCheck4 specCheck5 specCheck6 specCheck7
  cases hA : r.atr14 <;> cases hE : r.ema20 <;> cases hF : r.ema50 <;>
    cases hV : r.vol_ma20 <;> cases hP : p.atr14 <;>
    simp_all

theorem passes_filters_fst_eq_all_clear (r p : Row) :
    (passes_filters r p).1 = filter_all_clear r p := by
  unfold filter_all_clear
  rw [passes_filters_eq_spec]
  unfold filter_gate_spec
  split_ifs <;> simp_all

/-! ### Long-builder branch equations -/

theorem build_long_filterfail (s tf : String) (r p : Row)
    (hpf : (passes_filters r p).1 = false) :
    build_long_signal s tf r p = mkNone s tf (passes_filters r p).2 := by
  unfold build_long_signal
  dsimp only
  rw [hpf]
  rfl

theorem build_long_notrend (s tf : String) (r p : Row)
    (hpf : (passes_filters r p).1 = true)
    (ht : oGt r.ema20 r.ema50 = false) :
    build_long_signal s tf r p = mkNone s tf "Pas de tendance haussière claire." := by
  unfold build_long_signal
  dsimp only
  rw [hpf, ht]
  rfl

theorem build_long_nobreakout (s tf : String) (r p : Row)
    (hpf : (passes_filters r p).1 = true)
    (ht : oGt r.ema20 r.ema50 = true)
    (hb : (oGt (some r.close) r.hh_20 &&
        oGt (some r.volume) (Option.map (fun v => (6/5) * v) r.vol_ma20) &&
        oGt (some r.close) r.bb_upper) = false) :
    build_long_signal s tf r p = mkNone s tf "Pas de breakout haussier valide." := by
  unfold build_long_signal
  dsimp only
  rw [hpf, ht, hb]
  rfl

theorem build_long_norsi (s tf : String) (r p : Row)
    (hpf : (passes_filters r p).1 = true)
    (ht : oGt r.ema20 r.ema50 = true)
    (hb : (oGt (some r.close) r.hh_20 &&
        oGt (some r.volume) (Option.map (fun v => (6/5) * v) r.vol_ma20) &&
        oGt (some r.close) r.bb_upper) = true)
    (hr : oGt r.rsi14 (some 55) = false) :
    build_long_signal s tf r p = mkNone s tf "RSI pas assez fort pour un long (>55)." := by
  unfold build_long_signal
  dsimp only
  rw [hpf, ht, hb, hr]
  rfl

theorem build_long_nomacd (s tf : String) (r p : Row)
    (hpf : (passes_filters r p).1 = true)
    (ht : oGt r.ema20 r.ema50 = true)
    (hb : (oGt (some r.close) r.hh_20 &&
        oGt (some r.volume) (Option.map (fun v => (6/5) * v) r.vol_ma20) &&
        oGt (some r.close) r.bb_upper) = true)
    (hr : oGt r.rsi14 (some 55) = true)
    (hm : (oGt r.macd_hist (some 0) && oGe r.macd_hist p.macd_hist) = false) :
    build_long_signal s tf r p =
      mkNone s tf "MACD histogram non haussier / non croissant." := by
  unfold build_long_signal
  dsimp only
  rw [hpf, ht, hb, hr, hm]
  rfl

theorem build_long_badsl (s tf : String) (r p : Row)
    (hpf : (passes_filters r p).1 = true)
    (ht : oGt r.ema20 r.ema50 = true)
    (hb : (oGt (some r.close) r.hh_20 &&
        oGt (some r.volume) (Option.map (fun v => (6/5) * v) r.vol_ma20) &&
        oGt (some r.close) r.bb_upper) = true)
    (hr : oGt r.rsi14 (some 55) = true)
    (hm : (oGt r.macd_hist (some 0) && oGe r.macd_hist p.macd_hist) = true)
    (hg : r.close ≤ r.hh_20.getD 0 - (1/2) * r.atr14.getD 0) :
    build_long_signal s tf r p = mkNone s tf "SL calculé invalide (>= entry)." := by
  unfold build_long_signal
  dsimp only
  rw [hpf, ht, hb, hr, hm]
  simp only [Bool.not_true, Bool.false_eq_true, if_false]
  rw [if_pos hg]

theorem build_long_fires (s tf : String) (r p : Row)
    (hpf : (passes_filters r p).1 = true)
    (ht : oGt r.ema20 r.ema50 = true)
    (hb : (oGt (some r.close) r.hh_20 &&
        oGt (some r.volume) (Option.map (fun v => (6/5) * v) r.vol_ma20) &&
        oGt (some r.close) r.bb_upper) = true)
    (hr : oGt r.rsi14 (some 55) = true)
    (hm : (oGt r.macd_hist (some 0) && oGe r.macd_hist p.macd_hist) = true)
    (hg : ¬ r.close ≤ r.hh_20.getD 0 - (1/2) * r.atr14.getD 0) :
    build_long_signal s tf r p =
      { symbol := s, timeframe := tf, action := "LONG",
        reason := "Long breakout haussier validé (trend, volume, RSI, MACD, ATR).",
        mode := "MOMENTUM_BREAKOUT", confidence := 4/5,
        entry := some r.close,
        sl := some (r.hh_20.getD 0 - (1/2) * r.atr14.getD 0),
        tp1 := some (r.close + 1 * r.atr14.getD 0),
        tp2 := some (r.close + 2 * r.atr14.getD 0),
        tp3 := some (r.close + 3 * r.atr14.getD 0) } := by
  unfold build_long_signal
  dsimp only
  rw [hpf, ht, hb, hr, hm]
  simp only [Bool.not_true, Bool.false_eq_true, if_false]
  rw [if_neg hg]

/-! ### Short-builder branch equations -/

theorem build_short_filterfail (s tf : String) (r p : Row)
    (hpf : (passes_filters r p).1 = false) :
    build_short_signal s tf r p = mkNone s tf (passes_filters r p).2 := by
  unfold build_short_signal
  dsimp only
  rw [hpf]
  rfl

theorem build_short_notrend (s tf : String) (r p : Row)
    (hpf : (passes_filters r p).1 = true)
    (ht : oLt r.ema20 r.ema50 = false) :
    build_short_signal s tf r p = mkNone s tf "Pas de tendance baissière claire." := by
  unfold build_short_signal
  dsimp only
  rw [hpf, ht]
  rfl

theorem build_short_nobreakout (s tf : String) (r p : Row)
    (hpf : (passes_filters r p).1 = true)
    (ht : oLt r.ema20 r.ema50 = true)
    (hb : (oLt (some r.close) r.ll_20 &&
        oGt (some r.volume) (Option.map (fun v => (6/5) * v) r.vol_ma20) &&
        oLt (some r.close) r.bb_lower) = false) :
    build_short_signal s tf r p = mkNone s tf "Pas de breakout baissier valide." := by
  unfold build_short_signal
  dsimp only
  rw [hpf, ht, hb]
  rfl

theorem build_short_norsi (s tf : String) (r p : Row)
    (hpf : (passes_filters r p).1 = true)
    (ht : oLt r.ema20 r.ema50 = true)
    (hb : (oLt (some r.close) r.ll_20 &&
        oGt (some r.volume) (Option.map (fun v => (6/5) * v) r.vol_ma20) &&
        oLt (some r.close) r.bb_lower) = true)
    (hr : oLt r.rsi14 (some 45) = false) :
    build_short_signal s tf r p = mkNone s tf "RSI pas assez faible pour un short (<45)." := by
  unfold build_short_signal
  dsimp only
  rw [hpf, ht, hb, hr]
  rfl

theorem build_short_nomacd (s tf : String) (r p : Row)
    (hpf : (passes_filters r p).1 = true)
    (ht : oLt r.ema20 r.ema50 = true)
    (hb : (oLt (some r.close) r.ll_20 &&
        oGt (some r.volume) (Option.map (fun v => (6/5) * v) r.vol_ma20) &&
        oLt (some r.close) r.bb_lower) = true)
    (hr : oLt r.rsi14 (some 45) = true)
    (hm : (oLt r.macd_hist (some 0) && oLe r.macd_hist p.macd_hist) = false) :
    build_short_signal s tf r p =
      mkNone s tf "MACD histogram non baissier / non décroissant." := by
  unfold build_short_signal
  dsimp only
  rw [hpf, ht, hb, hr, hm]
  rfl

theorem build_short_badsl (s tf : String) (r p : Row)
    (hpf : (passes_filters r p).1 = true)
    (ht : oLt r.ema20 r.ema50 = true)
    (hb : (oLt (some r.close) r.ll_20 &&
        oGt (some r.volume) (Option.map (fun v => (6/5) * v) r.vol_ma20) &&
        oLt (some r.close) r.bb_lower) = true)
    (hr : oLt r.rsi14 (some 45) = true)
    (hm : (oLt r.macd_hist (some 0) && oLe r.macd_hist p.macd_hist) = true)
    (hg : r.ll_20.getD 0 + (1/2) * r.atr14.getD 0 ≤ r.close) :
    build_short_signal s tf r p = mkNone s tf "SL calculé invalide (<= entry)." := by
  unfold build_short_signal
  dsimp only
  rw [hpf, ht, hb, hr, hm]
  simp only [Bool.not_true, Bool.false_eq_true, if_false]
  rw [if_pos hg]

theorem build_short_fires (s tf : String) (r p : Row)
    (hpf : (passes_filters r p).1 = true)
    (ht : oLt r.ema20 r.ema50 = true)
    (hb : (oLt (some r.close) r.ll_20 &&
        oGt (some r.volume) (Option.map (fun v => (6/5) * v) r.vol_ma20) &&
        oLt (some r.close) r.bb_lower) = true)
    (hr : oLt r.rsi14 (some 45) = true)
    (hm : (oLt r.macd_hist (some 0) && oLe r.macd_hist p.macd_hist) = true)
    (hg : ¬ r.ll_20.getD 0 + (1/2) * r.atr14.getD 0 ≤ r.close) :
    build_short_signal s tf r p =
      { symbol := s, timeframe := tf, action := "SHORT",
        reason := "Short breakout baissier validé (trend, volume, RSI, MACD, ATR).",
        mode := "MOMENTUM_BREAKOUT", confidence := 4/5,
        entry := some r.close,
        sl := some (r.ll_20.getD 0 + (1/2) * r.atr14.getD 0),
        tp1 := some (r.close - 1 * r.atr14.getD 0),
        tp2 := some (r.close - 2 * r.atr14.getD 0),
        tp3 := some (r.close - 3 * r.atr14.getD 0) } := by
  unfold build_short_signal
  dsimp only
  rw [hpf, ht, hb, hr, hm]
  simp only [Bool.not_true, Bool.false_eq_true, if_false]
  rw [if_neg hg]

/-! ### Branch case analysis for the builders -/

/-- Case split on every branch of the long builder. -/
theorem build_long_cases (s tf : String) (r p : Row) {motive : Signal → Prop}
    (h1 : (passes_filters r p).1 = false →
      motive (mkNone s tf (passes_filters r p).2))
    (h2 : (passes_filters r p).1 = true →
      motive (mkNone s tf "Pas de tendance haussière claire."))
    (h3 : (passes_filters r p).1 = true →
      motive (mkNone s tf "Pas de breakout haussier valide."))
    (h4 : (passes_filters r p).1 = true →
      motive (mkNone s tf "RSI pas assez fort pour un long (>55)."))
    (h5 : (passes_filters r p).1 = true →
      motive (mkNone s tf "MACD histogram non haussier / non croissant."))
    (h6 : (passes_filters r p).1 = true →
      (oGt (some r.close) r.hh_20 &&
        oGt (some r.volume) (Option.map (fun v => (6/5) * v) r.vol_ma20) &&
        oGt (some r.close) r.bb_upper) = true →
      r.close ≤ r.hh_20.getD 0 - (1/2) * r.atr14.getD 0 →
      motive (mkNone s tf "SL calculé invalide (>= entry)."))
    (h7 : (passes_filters r p).1 = true →
      (oGt (some r.close) r.hh_20 &&
        oGt (some r.volume) (Option.map (fun v => (6/5) * v) r.vol_ma20) &&
        oGt (some r.close) r.bb_upper) = true →
      ¬ r.close ≤ r.hh_20.getD 0 - (1/2) * r.atr14.getD 0 →
      motive
        { symbol := s, timeframe := tf, action := "LONG",
          reason := "Long breakout haussier validé (trend, volume, RSI, MACD, ATR).",
          mode := "MOMENTUM_BREAKOUT", confidence := 4/5,
          entry := some r.close,
          sl := some (r.hh_20.getD 0 - (1/2) * r.atr14.getD 0),
          tp1 := some (r.close + 1 * r.atr14.getD 0),
          tp2 := some (r.close + 2 * r.atr14.getD 0),
          tp3 := some (r.close + 3 * r.atr14.getD 0) }) :
    motive (build_long_signal s tf r p) := by
  cases hpf : (passes_filters r p).1 with
  | false => rw [build_long_filterfail s tf r p hpf]; exact h1 hpf
  | true =>
    cases ht : oGt r.ema20 r.ema50 with
    | false => rw [build_long_notrend s tf r p hpf ht]; exact h2 hpf
    | true =>
      cases hb : (oGt (some r.close) r.hh_20 &&
          oGt (some r.volume) (Option.map (fun v => (6/5) * v) r.vol_ma20) &&
          oGt (some r.close) r.bb_upper) with
      | false => rw [build_long_nobreakout s tf r p hpf ht hb]; exact h3 hpf
      | true =>
        cases hr : oGt r.rsi14 (some 55) with
        | false => rw [build_long_norsi s tf r p hpf ht hb hr]; exact h4 hpf
        | true =>
          cases hm : (oGt r.macd_hist (some 0) && oGe r.macd_hist p.macd_hist) with
          | false => rw [build_long_nomacd s tf r p hpf ht hb hr hm]; exact h5 hpf
          | true =>
            by_cases hg : r.close ≤ r.hh_20.getD 0 - (1/2) * r.atr14.getD 0
            · rw [build_long_badsl s tf r p hpf ht hb hr hm hg]; exact h6 hpf hb hg
            · rw [build_long_fires s tf r p hpf ht hb hr hm hg]; exact h7 hpf hb hg

/-- Case split on every branch of the short builder. -/
theorem build_short_cases (s tf : String) (r p : Row) {motive : Signal → Prop}
    (h1 : (passes_filters r p).1 = false →
      motive (mkNone s tf (passes_filters r p).2))
    (h2 : (passes_filters r p).1 = true →
      motive (mkNone s tf "Pas de tendance baissière claire."))
    (h3 : (passes_filters r p).1 = true →
      motive (mkNone s tf "Pas de breakout baissier valide."))
    (h4 : (passes_filters r p).1 = true →
      motive (mkNone s tf "RSI pas assez faible pour un short (<45)."))
    (h5 : (passes_filters r p).1 = true →
      motive (mkNone s tf "MACD histogram non baissier / non décroissant."))
    (h6 : (passes_filters r p).1 = true →
      (oLt (some r.close) r.ll_20 &&
        oGt (some r.volume) (Option.map (fun v => (6/5) * v) r.vol_ma20) &&
        oLt (some r.close) r.bb_lower) = true →
      r.ll_20.getD 0 + (1/2) * r.atr14.getD 0 ≤ r.close →
      motive (mkNone s tf "SL calculé invalide (<= entry)."))
    (h7 : (passes_filters r p).1 = true →
      (oLt (some r.close) r.ll_20 &&
        oGt (some r.volume) (Option.map (fun v => (6/5) * v) r.vol_ma20) &&
        oLt (some r.close) r.bb_lower) = true →
      ¬ r.ll_20.getD 0 + (1/2) * r.atr14.getD 0 ≤ r.close →
      motive
        { symbol := s, timeframe := tf, action := "SHORT",
          reason := "Short breakout baissier validé (trend, volume, RSI, MACD, ATR).",
          mode := "MOMENTUM_BREAKOUT", confidence := 4/5,
          entry := some r.close,
          sl := some (r.ll_20.getD 0 + (1/2) * r.atr14.getD 0),
          tp1 := some (r.close - 1 * r.atr14.getD 0),
          tp2 := some (r.close - 2 * r.atr14.getD 0),
          tp3 := some (r.close - 3 * r.atr14.getD 0) }) :
    motive (build_short_signal s tf r p) := by
  cases hpf : (passes_filters r p).1 with
  | false => rw [build_short_filterfail s tf r p hpf]; exact h1 hpf
  | true =>
    cases ht : oLt r.ema20 r.ema50 with
    | false => rw [build_short_notrend s tf r p hpf ht]; exact h2 hpf
    | true =>
      cases hb : (oLt (some r.close) r.ll_20 &&
          oGt (some r.volume) (Option.map (fun v => (6/5) * v) r.vol_ma20) &&
          oLt (some r.close) r.bb_lower) with
      | false => rw [build_short_nobreakout s tf r p hpf ht hb]; exact h3 hpf
      | true =>
        cases hr : oLt r.rsi14 (some 45) with
        | false => rw [build_short_norsi s tf r p hpf ht hb hr]; exact h4 hpf
        | true =>
          cases hm : (oLt r.macd_hist (some 0) && oLe r.macd_hist p.macd_hist) with
          | false => rw [build_short_nomacd s tf r p hpf ht hb hr hm]; exact h5 hpf
          | true =>
            by_cases hg : r.ll_20.getD 0 + (1/2) * r.atr14.getD 0 ≤ r.close
            · rw [build_short_badsl s tf r p hpf ht hb hr hm hg]; exact h6 hpf hb hg
            · rw [build_short_fires s tf r p hpf ht hb hr hm hg]; exact h7 hpf hb hg

/-! ### Builder action and level facts -/

theorem build_long_action (s tf : String) (r p : Row) :
    (build_long_signal s tf r p).action = "LONG" ∨
      (build_long_signal s tf r p).action = "NONE" := by
  refine build_long_cases (motive := fun sig => sig.action = "LONG" ∨ sig.action = "NONE")
    s tf r p ?_ ?_ ?_ ?_ ?_ ?_ ?_ <;> intros <;> simp [mkNone]

theorem build_short_action (s tf : String) (r p : Row) :
    (build_short_signal s tf r p).action = "SHORT" ∨
      (build_short_signal s tf r p).action = "NONE" := by
  refine build_short_cases (motive := fun sig => sig.action = "SHORT" ∨ sig.action = "NONE")
    s tf r p ?_ ?_ ?_ ?_ ?_ ?_ ?_ <;> intros <;> simp [mkNone]

theorem build_long_levels (s tf : String) (r p : Row)
    (h : (build_long_signal s tf r p).action = "LONG") :
    ∃ e sl t1 t2 t3 : ℚ,
      (build_long_signal s tf r p).entry = some e ∧
      (build_long_signal s tf r p).sl = some sl ∧
      (build_long_signal s tf r p).tp1 = some t1 ∧
      (build_long_signal s tf r p).tp2 = some t2 ∧
      (build_long_signal s tf r p).tp3 = some t3 ∧
      sl < e ∧ e < t1 ∧ t1 < t2 ∧ t2 < t3 := by
  revert h
  refine build_long_cases (motive := fun sig => sig.action = "LONG" →
      ∃ e sl t1 t2 t3 : ℚ, sig.entry = some e ∧ sig.sl = some sl ∧ sig.tp1 = some t1 ∧
        sig.tp2 = some t2 ∧ sig.tp3 = some t3 ∧ sl < e ∧ e < t1 ∧ t1 < t2 ∧ t2 < t3)
    s tf r p ?_ ?_ ?_ ?_ ?_ ?_ ?_
  · intro _ h; simp [mkNone] at h
  · intro _ h; simp [mkNone] at h
  · intro _ h; simp [mkNone] at h
  · intro _ h; simp [mkNone] at h
  · intro _ h; simp [mkNone] at h
  · intro _ _ _ h; simp [mkNone] at h
  · intro hpf hb hg h
    obtain ⟨a, hA, hc, hle, hapos⟩ := passes_filters_facts hpf
    rw [hA] at hg ⊢
    refine ⟨r.close, r.hh_20.getD 0 - (1/2) * a,
      r.close + 1 * a, r.close + 2 * a, r.close + 3 * a,
      rfl, rfl, rfl, rfl, rfl, lt_of_not_le hg, by linarith, by linarith, by linarith⟩

theorem build_short_levels (s tf : String) (r p : Row)
    (h : (build_short_signal s tf r p).action = "SHORT") :
    ∃ e sl t1 t2 t3 : ℚ,
      (build_short_signal s tf r p).entry = some e ∧
      (build_short_signal s tf r p).sl = some sl ∧
      (build_short_signal s tf r p).tp1 = some t1 ∧
      (build_short_signal s tf r p).tp2 = some t2 ∧
      (build_short_signal s tf r p).tp3 = some t3 ∧
      t3 < t2 ∧ t2 < t1 ∧ t1 < e ∧ e < sl := by
  revert h
  refine build_short_cases (motive := fun sig => sig.action = "SHORT" →
      ∃ e sl t1 t2 t3 : ℚ, sig.entry = some e ∧ sig.sl = some sl ∧ sig.tp1 = some t1 ∧
        sig.tp2 = some t2 ∧ sig.tp3 = some t3 ∧ t3 < t2 ∧ t2 < t1 ∧ t1 < e ∧ e < sl)
    s tf r p ?_ ?_ ?_ ?_ ?_ ?_ ?_
  · intro _ h; simp [mkNone] at h
  · intro _ h; simp [mkNone] at h
  · intro _ h; simp [mkNone] at h
  · intro _ h; simp [mkNone] at h
  · intro _ h; simp [mkNone] at h
  · intro _ _ _ h; simp [mkNone] at h
  · intro hpf hb hg h
    obtain ⟨a, hA, hc, hle, hapos⟩ := passes_filters_facts hpf
    rw [hA] at hg ⊢
    refine ⟨r.close, r.ll_20.getD 0 + (1/2) * a,
      r.close - 1 * a, r.close - 2 * a, r.close - 3 * a,
      rfl, rfl, rfl, rfl, rfl, by linarith, by linarith, by linarith, lt_of_not_le hg⟩

/-! ### Dispatch facts for generate_signal -/

theorem generate_signal_long_eq (s tf : String) (df : List Row)
    (h : (generate_signal s tf df).action = "LONG") :
    generate_signal s tf df =
      build_long_signal s tf (df.getLastD defaultRow) (df.dropLast.getLastD defaultRow) := by
  unfold generate_signal at h ⊢
  dsimp only at h ⊢
  split_ifs at h ⊢ with h1 h2 h3 h4
  · simp at h
  · rw [h3] at h; simp at h
  · rfl
  · rfl
  · rcases build_short_action s tf (df.getLastD defaultRow) (df.dropLast.getLastD defaultRow)
      with hs | hs <;> rw [hs] at h <;> simp at h

theorem generate_signal_short_eq (s tf : String) (df : List Row)
    (h : (generate_signal s tf df).action = "SHORT") :
    generate_signal s tf df =
      build_short_signal s tf (df.getLastD defaultRow) (df.dropLast.getLastD defaultRow) := by
  unfold generate_signal at h ⊢
  dsimp only at h ⊢
  split_ifs at h ⊢ with h1 h2 h3 h4
  · simp at h
  · rfl
  · rcases build_long_action s tf (df.getLastD defaultRow) (df.dropLast.getLastD defaultRow)
      with hs | hs <;> rw [hs] at h <;> simp at h
  · rw [h4] at h; simp at h
  · rfl

/-! ### Unreachability of the invalid-stop rejections -/

/-- Neither invalid-stop reason string can come out of the filter gate. -/
theorem passes_filters_reason_ne (r p : Row) :
    ((passes_filters r p).2 == "SL calculé invalide (>= entry).") = false ∧
      ((passes_filters r p).2 == "SL calculé invalide (<= entry).") = false := by
  rw [passes_filters_eq_spec]
  unfold filter_gate_spec
  split_ifs <;> exact ⟨rfl, rfl⟩

/-- With a positive ATR (forced by a passing filter gate) and a breakout
above the 20-bar high, the computed long stop sits strictly below the entry,
so the invalid-stop rejection cannot trigger. -/
theorem long_sl_guard_impossible {r p : Row}
    (hpf : (passes_filters r p).1 = true)
    (hb : (oGt (some r.close) r.hh_20 &&
        oGt (some r.volume) (Option.map (fun v => (6/5) * v) r.vol_ma20) &&
        oGt (some r.close) r.bb_upper) = true)
    (hg : r.close ≤ r.hh_20.getD 0 - (1/2) * r.atr14.getD 0) : False := by
  obtain ⟨a, hA, hc, hle, hapos⟩ := passes_filters_facts hpf
  have hb1 : oGt (some r.close) r.hh_20 = true := by
    simp only [Bool.and_eq_true] at hb
    exact hb.1.1
  obtain ⟨hh, hhh, hlt⟩ := oGt_some_iff.mp hb1
  rw [hA, hhh] at hg
  simp only [Option.getD_some] at hg
  linarith

/-- Mirror fact for the short side. -/
theorem short_sl_guard_impossible {r p : Row}
    (hpf : (passes_filters r p).1 = true)
    (hb : (oLt (some r.close) r.ll_20 &&
        oGt (some r.volume) (Option.map (fun v => (6/5) * v) r.vol_ma20) &&
        oLt (some r.close) r.bb_lower) = true)
    (hg : r.ll_20.getD 0 + (1/2) * r.atr14.getD 0 ≤ r.close) : False := by
  obtain ⟨a, hA, hc, hle, hapos⟩ := passes_filters_facts hpf
  have hb1 : oLt (some r.close) r.ll_20 = true := by
    simp only [Bool.and_eq_true] at hb
    exact hb.1.1
  obtain ⟨ll, hll, hlt⟩ := oLt_some_iff.mp hb1
  rw [hA, hll] at hg
  simp only [Option.getD_some] at hg
  linarith

theorem build_long_reason_ne_sl (s tf : String) (r p : Row) :
    ((build_long_signal s tf r p).reason == "SL calculé invalide (>= entry).") = false := by
  refine build_long_cases
    (motive := fun sig => (sig.reason == "SL calculé invalide (>= entry).") = false)
    s tf r p ?_ ?_ ?_ ?_ ?_ ?_ ?_
  · intro _; exact (passes_filters_reason_ne r p).1
  · intro _; rfl
  · intro _; rfl
  · intro _; rfl
  · intro _; rfl
  · intro hpf hb hg; exact absurd (long_sl_guard_impossible hpf hb hg) not_false
  · intro _ _ _; rfl

theorem build_short_reason_ne_sl (s tf : String) (r p : Row) :
    ((build_short_signal s tf r p).reason == "SL calculé invalide (<= entry).") = false := by
  refine build_short_cases
    (motive := fun sig => (sig.reason == "SL calculé invalide (<= entry).") = false)
    s tf r p ?_ ?_ ?_ ?_ ?_ ?_ ?_
  · intro _; exact (passes_filters_reason_ne r p).2
  · intro _; rfl
  · intro _; rfl
  · intro _; rfl
  · intro _; rfl
  · intro hpf hb hg; exact absurd (short_sl_guard_impossible hpf hb hg) not_false
  · intro _ _ _; rfl

/-! ### The breakout conditions are unsatisfiable on OHLC-valid candles -/

/-- If the last close does not exceed the 20-bar high, the long builder
cannot fire (the breakout conjunction fails). -/
theorem build_long_none_of_no_breakout (s tf : String) (r p : Row)
    (h : oGt (some r.close) r.hh_20 = false) :
    (build_long_signal s tf r p).action = "NONE" := by
  refine build_long_cases (motive := fun sig => sig.action = "NONE")
    s tf r p ?_ ?_ ?_ ?_ ?_ ?_ ?_
  · intro _; rfl
  · intro _; rfl
  · intro _; rfl
  · intro _; rfl
  · intro _; rfl
  · intro _ _ _; rfl
  · intro _ hb _
    simp only [Bool.and_eq_true] at hb
    rw [h] at hb
    simp at hb

/-- Mirror: no drop below the 20-bar low, no short signal. -/
theorem build_short_none_of_no_breakout (s tf : String) (r p : Row)
    (h : oLt (some r.close) r.ll_20 = false) :
    (build_short_signal s tf r p).action = "NONE" := by
  refine build_short_cases (motive := fun sig => sig.action = "NONE")
    s tf r p ?_ ?_ ?_ ?_ ?_ ?_ ?_
  · intro _; rfl
  · intro _; rfl
  · intro _; rfl
  · intro _; rfl
  · intro _; rfl
  · intro _ _ _; rfl
  · intro _ hb _
    simp only [Bool.and_eq_true] at hb
    rw [h] at hb
    simp at hb

/-- On a last row whose `hh_20`/`ll_20` really are the rolling extrema of the
table's highs/lows and whose close lies inside the candle's `low ≤ close ≤
high` range, `generate_signal` returns `NONE`: both breakouts are impossible. -/
theorem generate_signal_none_of_valid (s tf : String) (df : List Row) (r : Row)
    (hlast : df.getLast? = some r)
    (hhh : r.hh_20 = rolling_last_max (df.map Row.high) 20)
    (hll : r.ll_20 = rolling_last_min (df.map Row.low) 20)
    (hch : r.close ≤ r.high) (hcl : r.low ≤ r.close) :
    (generate_signal s tf df).action = "NONE" := by
  by_cases hlen : df.length < MIN_CANDLES_REQUIRED
  · unfold generate_signal
    rw [if_pos hlen]
  · have hlen20 : 20 ≤ df.length := by
      unfold MIN_CANDLES_REQUIRED at hlen
      omega
    have hrow : df.getLastD defaultRow = r := by
      rw [List.getLastD_eq_getLast?, hlast]
      rfl
    have hmaplast : (df.map Row.high).getLast? = some r.high := by
      rw [List.getLast?_map, hlast]
      rfl
    have hminlast : (df.map Row.low).getLast? = some r.low := by
      rw [List.getLast?_map, hlast]
      rfl
    obtain ⟨m, hm, hhm⟩ := rolling_last_max_ge_last (df.map Row.high) r.high 20
      (by norm_num) (by simpa using hlen20) hmaplast
    obtain ⟨m', hm', hmm'⟩ := rolling_last_min_le_last (df.map Row.low) r.low 20
      (by norm_num) (by simpa using hlen20) hminlast
    have hGt : oGt (some r.close) r.hh_20 = false := by
      rw [hhh, hm]
      simp only [oGt]
      simp only [decide_eq_false_iff_not, not_lt]
      linarith
    have hLt : oLt (some r.close) r.ll_20 = false := by
      rw [hll, hm']
      simp only [oLt]
      simp only [decide_eq_false_iff_not, not_lt]
      linarith
    have hlong := build_long_none_of_no_breakout s tf (df.getLastD defaultRow)
      (df.dropLast.getLastD defaultRow) (by rw [hrow]; exact hGt)
    have hshort := build_short_none_of_no_breakout s tf (df.getLastD defaultRow)
      (df.dropLast.getLastD defaultRow) (by rw [hrow]; exact hLt)
    unfold generate_signal
    dsimp only
    rw [if_neg hlen]
    split_ifs with h1 h2 h3
    · rw [hshort] at h2; simp at h2
    · exact hlong
    · rw [hlong] at h3; simp at h3
    · exact hshort

/-! ### Evaluation state bookkeeping -/

/-- Every branch of the evaluation body leaves `DAILY_PNL` and `DAILY_DATE`
untouched: the engine never accumulates PnL on its own. -/
theorem evaluateFromState_preserves_pnl (f : List RawCandle → List Row) (nowTs : ℚ)
    (sym tf : String) (candles : List RawCandle) (equity : ℚ) (st : EngineState) :
    ((evaluateFromState f nowTs sym tf candles equity st).2).dailyPnl = st.dailyPnl ∧
      ((evaluateFromState f nowTs sym tf candles equity st).2).dailyDate = st.dailyDate := by
  unfold evaluateFromState
  dsimp only
  split
  · exact ⟨rfl, rfl⟩
  · split
    · exact ⟨rfl, rfl⟩
    · split_ifs <;> exact ⟨rfl, rfl⟩

/-! ### Claim C3: the documented LONG end-to-end scenario is impossible.
`hh_20` is the rolling 20-candle maximum of `high` including the current
candle, so the LONG breakout `close > hh_20` needs `close > high`; on
OHLC-valid candles (`close ≤ high`) every evaluation ends with no trade. -/

/-- C3: for any pipeline body whose last row is consistent with the source's
`hh_20`/`ll_20` definitions (lines 183-184) and OHLC-valid
(`low ≤ close ≤ high`), `evaluate_and_maybe_trade` returns a `NONE` decision
and no order: the spec's required LONG/BUY outcome is unreachable. -/

theorem long_breakout_unreachable_on_valid_candles (f : List RawCandle → List Row)
    (nowDate : ℕ) (nowTs : ℚ) (sym tf : String) (candles : List RawCandle)
    (equity : ℚ) (pnlOpt : Option ℚ) (st : EngineState) (r : Row)
    (hlast : (f candles).getLast? = some r)
    (hhh : r.hh_20 = rolling_last_max ((f candles).map Row.high) 20)
    (hll : r.ll_20 = rolling_last_min ((f candles).map Row.low) 20)
    (hch : r.close ≤ r.high) (hcl : r.low ≤ r.close) :
    (evaluate_and_maybe_trade f nowDate nowTs sym tf candles equity pnlOpt st).1.decision.action
        = "NONE" ∧
      (evaluate_and_maybe_trade f nowDate nowTs sym tf candles equity pnlOpt st).1.order
        = none := by
  unfold evaluate_and_maybe_trade evaluateFromState
  dsimp only
  split_ifs with hbr
  · exact ⟨rfl, rfl⟩
  · rcases hco : compute_indicators f candles with msg | df
    · exact ⟨rfl, rfl⟩
    · have hdf : df = f candles := by
        unfold compute_indicators at hco
        rcases hv : compute_indicators_validate candles with _ | msg'
        · rw [hv] at hco
          exact (Except.ok.inj hco).symm
        · rw [hv] at hco
          cases hco
      subst hdf
      have hsig := generate_signal_none_of_valid sym tf (f candles) r hlast hhh hll hch hcl
      dsimp only
      rw [if_pos (Or.inl hsig)]
      exact ⟨hsig, rfl⟩

/-! ### State-step facts and claims C1, C2, C4, C5, C9 -/

theorem rolloverStep_decisions (d : ℕ) (st : EngineState) :
    (rolloverStep d st).decisions = st.decisions := by
  unfold rolloverStep
  split <;> rfl

theorem overrideStep_decisions (o : Option ℚ) (st : EngineState) :
    (overrideStep o st).decisions = st.decisions := by
  unfold overrideStep
  cases o <;> rfl

theorem overrideStep_dailyDate (o : Option ℚ) (st : EngineState) :
    (overrideStep o st).dailyDate = st.dailyDate := by
  unfold overrideStep
  cases o <;> rfl

/-- C1: every LONG signal out of `generate_signal` carries levels ordered
`sl < entry < tp1 < tp2 < tp3`; every SHORT signal carries the reverse
strict ordering `tp3 < tp2 < tp1 < entry < sl`. -/
theorem generate_signal_levels_ordered (sym tf : String) (df : List Row) :
    ((generate_signal sym tf df).action = "LONG" →
      ∃ e sl t1 t2 t3 : ℚ,
        (generate_signal sym tf df).entry = some e ∧
        (generate_signal sym tf df).sl = some sl ∧
        (generate_signal sym tf df).tp1 = some t1 ∧
        (generate_signal sym tf df).tp2 = some t2 ∧
        (generate_signal sym tf df).tp3 = some t3 ∧
        sl < e ∧ e < t1 ∧ t1 < t2 ∧ t2 < t3) ∧
    ((generate_signal sym tf df).action = "SHORT" →
      ∃ e sl t1 t2 t3 : ℚ,
        (generate_signal sym tf df).entry = some e ∧
        (generate_signal sym tf df).sl = some sl ∧
        (generate_signal sym tf df).tp1 = some t1 ∧
        (generate_signal sym tf df).tp2 = some t2 ∧
        (generate_signal sym tf df).tp3 = some t3 ∧
        t3 < t2 ∧ t2 < t1 ∧ t1 < e ∧ e < sl) := by
  constructor
  · intro h
    have heq := generate_signal_long_eq sym tf df h
    rw [heq] at h ⊢
    exact build_long_levels sym tf _ _ h
  · intro h
    have heq := generate_signal_short_eq sym tf df h
    rw [heq] at h ⊢
    exact build_short_levels sym tf _ _ h

/-- The LONG case of C1 is not vacuous: a concrete 60-row table on which
`generate_signal` confirms a LONG setup. -/
theorem generate_signal_long_reachable :
    (generate_signal "BTCUSDT" "1h" wdf).action = "LONG" := by
  norm_num [generate_signal, wdf, MIN_CANDLES_REQUIRED, build_long_signal,
    build_short_signal, passes_filters, wRow, wPrev, ratAbs, oGt, oGe, oLt, oLe,
    getLastD_append_pair, dropLast_append_pair, getLastD_append_single]

/-- C2: `_passes_filters` is exactly the documented check cascade — the seven
checks in the documented order, the first failing check naming its specific
rejection reason, check 7 skipped when the previous ATR is undefined — and it
passes iff all checks clear. -/
theorem passes_filters_follows_documented_order (r p : Row) :
    passes_filters r p = filter_gate_spec r p ∧
      (passes_filters r p).1 = filter_all_clear r p :=
  ⟨passes_filters_eq_spec r p, passes_filters_fst_eq_all_clear r p⟩

/-- C9: the `SL calculé invalide` rejection branches of the two builders are
dead code: with a passing filter gate (hence positive ATR) and a confirmed
breakout, the computed stop always lies strictly on the correct side of the
entry. -/
theorem invalid_sl_branch_unreachable (s tf : String) (r p : Row) :
    ((build_long_signal s tf r p).reason == "SL calculé invalide (>= entry).") = false ∧
      ((build_short_signal s tf r p).reason == "SL calculé invalide (<= entry).") = false :=
  ⟨build_long_reason_ne_sl s tf r p, build_short_reason_ne_sl s tf r p⟩

/-- C4 counterexample: at `equity = -100` the code returns `0` while the
claimed formula `(equity × RISK_PER_TRADE)/|entry − sl|` gives `-1/2`. -/
theorem compute_position_size_claim_counterexample :
    compute_position_size (-100) 100 98 = 0 ∧
      (-100 : ℚ) * RISK_PER_TRADE / ratAbs (100 - 98) = -(1/2) ∧
      (0 : ℚ) ≠ -(1/2) := by
  norm_num [compute_position_size, ratAbs, pymax, RISK_PER_TRADE]

/-- C4 (amended): `_compute_position_size` returns 0 when the stop distance
is degenerate and otherwise the risk amount over the distance floored at 0
(the floor is what the original claim missed); at `(10000, 100, 98)` it
returns exactly 50. -/
theorem compute_position_size_spec (equity entry sl : ℚ) :
    (ratAbs (entry - sl) ≤ 0 → compute_position_size equity entry sl = 0) ∧
    (0 < ratAbs (entry - sl) →
      compute_position_size equity entry sl =
        pymax (equity * RISK_PER_TRADE / ratAbs (entry - sl)) 0) ∧
    compute_position_size 10000 100 98 = 50 := by
  refine ⟨?_, ?_, by norm_num [compute_position_size, ratAbs, pymax, RISK_PER_TRADE]⟩
  · intro h
    unfold compute_position_size
    dsimp only
    rw [if_pos h]
  · intro h
    unfold compute_position_size
    dsimp only
    rw [if_neg (not_le.mpr h)]

/-- C5: `_respect_leverage_constraints` leaves `qty` alone under the leverage
cap, clamps to `max_notional/entry` above it, returns 0 above it when
`entry ≤ 0`; at `equity = 1000`, `entry = 100` an over-notional quantity is
clamped to exactly 200. -/
theorem respect_leverage_constraints_spec (equity entry qty : ℚ) :
    (qty * entry ≤ equity * MAX_LEVERAGE →
      respect_leverage_constraints equity entry qty = qty) ∧
    (equity * MAX_LEVERAGE < qty * entry → entry ≤ 0 →
      respect_leverage_constraints equity entry qty = 0) ∧
    (equity * MAX_LEVERAGE < qty * entry → 0 < entry →
      respect_leverage_constraints equity entry qty = equity * MAX_LEVERAGE / entry) ∧
    ((1000 : ℚ) * MAX_LEVERAGE < qty * 100 →
      respect_leverage_constraints 1000 100 qty = 200) := by
  refine ⟨?_, ?_, ?_, ?_⟩
  · intro h
    unfold respect_leverage_constraints
    dsimp only
    rw [if_pos h]
  · intro h1 h2
    unfold respect_leverage_constraints
    dsimp only
    rw [if_neg (not_le.mpr h1), if_pos h2]
  · intro h1 h2
    unfold respect_leverage_constraints
    dsimp only
    rw [if_neg (not_le.mpr h1), if_neg (not_le.mpr h2)]
  · intro h1
    unfold respect_leverage_constraints
    dsimp only
    rw [if_neg (not_le.mpr h1), if_neg (by norm_num : ¬ (100 : ℚ) ≤ 0)]
    norm_num [MAX_LEVERAGE]

/-! ### Claim C6: the daily loss breaker -/

/-- C6: whenever the PnL on the books after the rollover and override steps
breaches `-MAX_DAILY_LOSS × equity`, evaluation short-circuits: the decision
is the `RISK_STOP` record (action NONE, confidence 0), it is appended to the
decision history, no order is returned, and the result does not depend on
the candles nor on the indicator computation. -/
theorem daily_loss_breaker_short_circuits (f f' : List RawCandle → List Row)
    (nowDate : ℕ) (nowTs : ℚ) (sym tf : String) (candles candles' : List RawCandle)
    (equity : ℚ) (pnlOpt : Option ℚ) (st : EngineState)
    (h : (overrideStep pnlOpt (rolloverStep nowDate st)).dailyPnl ≤
      -MAX_DAILY_LOSS * equity) :
    (evaluate_and_maybe_trade f nowDate nowTs sym tf candles equity pnlOpt st).1.decision
        = riskStopDecision sym tf nowTs
            (overrideStep pnlOpt (rolloverStep nowDate st)).dailyPnl ∧
    (evaluate_and_maybe_trade f nowDate nowTs sym tf candles equity pnlOpt st).1.decision.action
        = "NONE" ∧
    (evaluate_and_maybe_trade f nowDate nowTs sym tf candles equity pnlOpt st).1.decision.mode
        = "RISK_STOP" ∧
    (evaluate_and_maybe_trade f nowDate nowTs sym tf candles equity pnlOpt st).1.decision.confidence
        = 0 ∧
    (evaluate_and_maybe_trade f nowDate nowTs sym tf candles equity pnlOpt st).1.order
        = none ∧
    ((evaluate_and_maybe_trade f nowDate nowTs sym tf candles equity pnlOpt st).2).decisions
        = pushBounded 500 st.decisions
            (riskStopDecision sym tf nowTs
              (overrideStep pnlOpt (rolloverStep nowDate st)).dailyPnl) ∧
    evaluate_and_maybe_trade f' nowDate nowTs sym tf candles' equity pnlOpt st
        = evaluate_and_maybe_trade f nowDate nowTs sym tf candles equity pnlOpt st := by
  unfold evaluate_and_maybe_trade evaluateFromState
  dsimp only
  rw [if_pos h, if_pos h]
  refine ⟨rfl, rfl, rfl, rfl, rfl, ?_, rfl⟩
  rw [overrideStep_decisions, rolloverStep_decisions]

theorem daily_loss_breaker_short_circuits_witness :
    (evaluate_and_maybe_trade vPipeline 0 0 "BTCUSDT" "1h" [] 10000
        (some (-1001)) {}).1.decision
        = riskStopDecision "BTCUSDT" "1h" 0
            (overrideStep (some (-1001)) (rolloverStep 0 {})).dailyPnl ∧
    (evaluate_and_maybe_trade vPipeline 0 0 "BTCUSDT" "1h" [] 10000
        (some (-1001)) {}).1.decision.action = "NONE" ∧
    (evaluate_and_maybe_trade vPipeline 0 0 "BTCUSDT" "1h" [] 10000
        (some (-1001)) {}).1.decision.mode = "RISK_STOP" ∧
    (evaluate_and_maybe_trade vPipeline 0 0 "BTCUSDT" "1h" [] 10000
        (some (-1001)) {}).1.decision.confidence = 0 ∧
    (evaluate_and_maybe_trade vPipeline 0 0 "BTCUSDT" "1h" [] 10000
        (some (-1001)) {}).1.order = none ∧
    ((evaluate_and_maybe_trade vPipeline 0 0 "BTCUSDT" "1h" [] 10000
        (some (-1001)) {}).2).decisions
        = pushBounded 500 (EngineState.decisions {})
            (riskStopDecision "BTCUSDT" "1h" 0
              (overrideStep (some (-1001)) (rolloverStep 0 {})).dailyPnl) ∧
    evaluate_and_maybe_trade (fun _ => []) 0 0 "BTCUSDT" "1h" [vCandle] 10000
        (some (-1001)) {}
        = evaluate_and_maybe_trade vPipeline 0 0 "BTCUSDT" "1h" [] 10000
            (some (-1001)) {} :=
  daily_loss_breaker_short_circuits vPipeline (fun _ => []) 0 0 "BTCUSDT" "1h"
    [] [vCandle] 10000 (some (-1001)) {}
    (by norm_num [overrideStep, rolloverStep, MAX_DAILY_LOSS])

/-! ### Claims C7 and C10: PnL state bookkeeping -/

/-- C7: on a date change the stored PnL is reset to 0 and the stored date
advanced, strictly before the external override is applied (the evaluation
body runs on `overrideStep ∘ rolloverStep` of the state); in particular with
no override the post-call PnL is the reset 0. -/
theorem date_rollover_resets_before_override (f : List RawCandle → List Row)
    (nowDate : ℕ) (nowTs : ℚ) (sym tf : String) (candles : List RawCandle)
    (equity : ℚ) (pnlOpt : Option ℚ) (st : EngineState)
    (h : st.dailyDate ≠ some nowDate) :
    (rolloverStep nowDate st).dailyPnl = 0 ∧
    (rolloverStep nowDate st).dailyDate = some nowDate ∧
    evaluate_and_maybe_trade f nowDate nowTs sym tf candles equity pnlOpt st
      = evaluateFromState f nowTs sym tf candles equity
          (overrideStep pnlOpt (rolloverStep nowDate st)) ∧
    ((evaluate_and_maybe_trade f nowDate nowTs sym tf candles equity pnlOpt st).2).dailyDate
      = some nowDate ∧
    (pnlOpt = none →
      ((evaluate_and_maybe_trade f nowDate nowTs sym tf candles equity pnlOpt st).2).dailyPnl
        = 0) := by
  have hr : rolloverStep nowDate st
      = { st with dailyDate := some nowDate, dailyPnl := 0 } := by
    unfold rolloverStep
    rw [if_neg h]
  refine ⟨by rw [hr], by rw [hr], rfl, ?_, ?_⟩
  · unfold evaluate_and_maybe_trade
    rw [(evaluateFromState_preserves_pnl f nowTs sym tf candles equity _).2,
      overrideStep_dailyDate, hr]
  · intro hnone
    subst hnone
    unfold evaluate_and_maybe_trade
    rw [(evaluateFromState_preserves_pnl f nowTs sym tf candles equity _).1]
    unfold overrideStep
    rw [hr]

theorem date_rollover_resets_before_override_witness :
    (rolloverStep 4 { dailyPnl := 55, dailyDate := some 3 }).dailyPnl = 0 ∧
    (rolloverStep 4 { dailyPnl := 55, dailyDate := some 3 }).dailyDate = some 4 ∧
    evaluate_and_maybe_trade vPipeline 4 0 "BTCUSDT" "1h" [vCandle] 10000 none
        { dailyPnl := 55, dailyDate := some 3 }
      = evaluateFromState vPipeline 0 "BTCUSDT" "1h" [vCandle] 10000
          (overrideStep none
            (rolloverStep 4 { dailyPnl := 55, dailyDate := some 3 })) ∧
    ((evaluate_and_maybe_trade vPipeline 4 0 "BTCUSDT" "1h" [vCandle] 10000 none
        { dailyPnl := 55, dailyDate := some 3 }).2).dailyDate = some 4 ∧
    (none = (none : Option ℚ) →
      ((evaluate_and_maybe_trade vPipeline 4 0 "BTCUSDT" "1h" [vCandle] 10000 none
          { dailyPnl := 55, dailyDate := some 3 }).2).dailyPnl = 0) :=
  date_rollover_resets_before_override vPipeline 4 0 "BTCUSDT" "1h" [vCandle]
    10000 none { dailyPnl := 55, dailyDate := some 3 } (by simp)

/-- C10: the `daily_pnl` argument defaults to `0.0` (not `None`), so a call
omitting it overwrites the stored PnL with 0; any supplied value `x` is
stored verbatim and read back by `get_pnl_stats`; the engine never
accumulates PnL across calls on its own. -/
theorem daily_pnl_override_semantics (f : List RawCandle → List Row)
    (nowDate : ℕ) (nowTs : ℚ) (sym tf : String) (candles : List RawCandle)
    (equity : ℚ) (st : EngineState) (x : ℚ) :
    (get_pnl_stats
        ((evaluate_and_maybe_trade f nowDate nowTs sym tf candles equity
          (some x) st).2)).1 = x ∧
    ((evaluate_and_maybe_trade f nowDate nowTs sym tf candles equity
        DAILY_PNL_DEFAULT st).2).dailyPnl = 0 ∧
    DAILY_PNL_DEFAULT = some 0 := by
  refine ⟨?_, ?_, rfl⟩
  · unfold evaluate_and_maybe_trade get_pnl_stats
    rw [(evaluateFromState_preserves_pnl f nowTs sym tf candles equity _).1]
    rfl
  · unfold evaluate_and_maybe_trade DAILY_PNL_DEFAULT
    rw [(evaluateFromState_preserves_pnl f nowTs sym tf candles equity _).1]
    rfl

/-! ### Claim C8 and the remaining witnesses -/

/-- C8: a `ValueError` from `compute_indicators` validation never reaches the
caller: with the breaker clear, evaluation converts it into a decision with
action NONE, mode ERROR, confidence 0, the reason carrying the failure
message, and no order.  The listed bad inputs — an empty candle list, a list
whose candles all lack `close`, a list whose candles lack both `timestamp`
and `ts` — do fail validation with their specific messages. -/
theorem validation_failure_recovered (f : List RawCandle → List Row)
    (nowDate : ℕ) (nowTs : ℚ) (sym tf : String) (candles : List RawCandle)
    (equity : ℚ) (pnlOpt : Option ℚ) (st : EngineState) (msg : String)
    (hv : compute_indicators_validate candles = some msg)
    (hb : -MAX_DAILY_LOSS * equity <
      (overrideStep pnlOpt (rolloverStep nowDate st)).dailyPnl) :
    (evaluate_and_maybe_trade f nowDate nowTs sym tf candles equity pnlOpt st).1.decision
        = errorDecision sym tf nowTs msg ∧
    (evaluate_and_maybe_trade f nowDate nowTs sym tf candles equity pnlOpt st).1.decision.action
        = "NONE" ∧
    (evaluate_and_maybe_trade f nowDate nowTs sym tf candles equity pnlOpt st).1.decision.mode
        = "ERROR" ∧
    (evaluate_and_maybe_trade f nowDate nowTs sym tf candles equity pnlOpt st).1.decision.confidence
        = 0 ∧
    (evaluate_and_maybe_trade f nowDate nowTs sym tf candles equity pnlOpt st).1.decision.reason
        = "Erreur compute_indicators: " ++ msg ∧
    (evaluate_and_maybe_trade f nowDate nowTs sym tf candles equity pnlOpt st).1.order
        = none ∧
    compute_indicators_validate [] = some "Liste de candles vide" ∧
    compute_indicators_validate [noCloseCandle]
        = some ("Colonne \x27close\x27 manquante dans les candles") ∧
    compute_indicators_validate [noTsCandle]
        = some ("Il manque une colonne \x27timestamp\x27 ou \x27ts\x27 dans les candles") := by
  have hco : compute_indicators f candles = Except.error msg := by
    unfold compute_indicators
    rw [hv]
  unfold evaluate_and_maybe_trade evaluateFromState
  dsimp only
  rw [if_neg (not_le.mpr hb), hco]
  exact ⟨rfl, rfl, rfl, rfl, rfl, rfl, rfl, rfl, rfl⟩

theorem validation_failure_recovered_witness :
    (evaluate_and_maybe_trade vPipeline 0 0 "BTCUSDT" "1h" [] 10000
        (some 0) {}).1.decision
        = errorDecision "BTCUSDT" "1h" 0 "Liste de candles vide" ∧
    (evaluate_and_maybe_trade vPipeline 0 0 "BTCUSDT" "1h" [] 10000
        (some 0) {}).1.decision.action = "NONE" ∧
    (evaluate_and_maybe_trade vPipeline 0 0 "BTCUSDT" "1h" [] 10000
        (some 0) {}).1.decision.mode = "ERROR" ∧
    (evaluate_and_maybe_trade vPipeline 0 0 "BTCUSDT" "1h" [] 10000
        (some 0) {}).1.decision.confidence = 0 ∧
    (evaluate_and_maybe_trade vPipeline 0 0 "BTCUSDT" "1h" [] 10000
        (some 0) {}).1.decision.reason
        = "Erreur compute_indicators: " ++ "Liste de candles vide" ∧
    (evaluate_and_maybe_trade vPipeline 0 0 "BTCUSDT" "1h" [] 10000
        (some 0) {}).1.order = none ∧
    compute_indicators_validate [] = some "Liste de candles vide" ∧
    compute_indicators_validate [noCloseCandle]
        = some ("Colonne \x27close\x27 manquante dans les candles") ∧
    compute_indicators_validate [noTsCandle]
        = some ("Il manque une colonne \x27timestamp\x27 ou \x27ts\x27 dans les candles") :=
  validation_failure_recovered vPipeline 0 0 "BTCUSDT" "1h" [] 10000 (some 0) {}
    "Liste de candles vide" rfl
    (by norm_num [overrideStep, rolloverStep, MAX_DAILY_LOSS])

theorem long_breakout_unreachable_witness :
    (evaluate_and_maybe_trade vPipeline 0 0 "BTCUSDT" "1h" [vCandle] 10000
        (some 0) {}).1.decision.action = "NONE" ∧
    (evaluate_and_maybe_trade vPipeline 0 0 "BTCUSDT" "1h" [vCandle] 10000
        (some 0) {}).1.order = none :=
  long_breakout_unreachable_on_valid_candles vPipeline 0 0 "BTCUSDT" "1h"
    [vCandle] 10000 (some 0) {} vLast
    (by simp [vPipeline, vdf])
    (by simp [vPipeline, vdf, vLast, vBase])
    (by simp [vPipeline, vdf, vLast, vBase])
    (by norm_num [vLast, vBase])
    (by norm_num [vLast, vBase])

end DecisionEngine
